import Mathlib

/-!
# KR-AI-Engine: verification of the document-ingestion pipeline spec

Shallow embedding, in Lean 4, of the parts of the KR-AI-Engine Python
sources that the specification's claims are about:

* `src/backend/supabase_document_processor.py` (`SupabaseDocumentProcessor`)
* `src/backend/production_document_processor.py` (`ProductionDocumentProcessor`)
* `src/backend/config/supabase_config.py` (`SupabaseStorage`)
* `src/backend/config/production_config.py` (`ProductionConfig`)
* `src/test/backend-tests/json_config_classifier.py` (`JSONConfigClassifier`)
* `src/test/backend-tests/intelligent_model_extractor.py`
  (`IntelligentModelExtractor`)

Python floats only ever carry the literal values `0.0`, `0.3`, `0.8`, … in
the modelled code paths, so they are embedded as rationals (`ℚ`); byte
strings are `List Nat`; fallible operations return `Option`; the database
and the object store are explicit state records threaded through the
pipeline functions.  HTTP endpoints are parameters (a response per call),
so theorems quantify over every endpoint behaviour.

The JSON pattern-configuration files (`error_code_patterns.json`,
`model_placeholder_patterns.json`, `chunk_settings.json`) are part of the
repository but are not present under the source tree; where a claim needs
their contents the corresponding Lean value is modelled from the spec and
marked as such in its doc comment.
-/

namespace KRAI

/-! ## A small regex engine

The extractors use Python `re` with patterns built from literal
characters, the `\d` class, counted repetition (`{2,3}`, expanded below
into an optional tail), and the `^`/`$` anchors.  `RE` is the abstract
syntax; `reRun` is a backtracking matcher in continuation-passing style
that reproduces Python's leftmost, greedy semantics (an `opt` tries to
consume before trying the empty alternative, which is exactly the greedy
order counted repetition backtracks in). -/

/-- Regex abstract syntax: empty word, literal character, `\d`,
concatenation, greedy option (`X?`), and `$` (end of subject). -/
inductive RE : Type
  | eps : RE
  | lit : Char → RE
  | digit : RE
  | seq : RE → RE → RE
  | opt : RE → RE
  | eos : RE
deriving Repr, DecidableEq

/-- Backtracking matcher.  `reRun r s k` tries to match `r` against a
prefix of `s` and hands the remaining suffix to the continuation `k`;
the first success in backtracking order wins, matching Python's
leftmost-greedy behaviour. -/
def reRun : RE → List Char → (List Char → Option Nat) → Option Nat
  | .eps, s, k => k s
  | .lit c, s, k =>
    match s with
    | [] => none
    | x :: xs => if x = c then k xs else none
  | .digit, s, k =>
    match s with
    | [] => none
    | x :: xs => if x.isDigit then k xs else none
  | .seq a b, s, k => reRun a s (fun s2 => reRun b s2 k)
  | .opt r, s, k => (reRun r s k).orElse (fun _ => k s)
  | .eos, s, k => if s.isEmpty then k s else none

/-- Length of the match Python's engine produces at the start of `s`
(greedy, leftmost), or `none` if the pattern does not match there. -/
def matchLenAt (r : RE) (s : List Char) : Option Nat :=
  reRun r s (fun rest => some (s.length - rest.length))

/-- `re.match(pattern, s)` semantics: the pattern is anchored at the
start of the subject (only), as Python's `re.match` does. -/
def reMatchPy (r : RE) (s : String) : Bool :=
  (matchLenAt r s.data).isSome

/-- Full match of the subject (what `re.match` means for a pattern that
ends in `$`, and `re.fullmatch` in general). -/
def reFullmatch (r : RE) (s : String) : Bool :=
  (reRun r s.data (fun rest => if rest.isEmpty then some 0 else none)).isSome

/-- Worker for `reFindAll`: scan positions left to right; on a match,
record it and resume after its end (Python's non-overlapping scan).  The
fuel is the subject length; every step consumes at least one character. -/
def findAllGo : Nat → RE → List Char → List (List Char)
  | 0, _, _ => []
  | _ + 1, _, [] => []
  | fuel + 1, r, s@(_ :: tail) =>
    match matchLenAt r s with
    | some n =>
      if n = 0 then findAllGo fuel r tail
      else s.take n :: findAllGo fuel r (s.drop n)
    | none => findAllGo fuel r tail

/-- `re.findall(pattern, s)` for a pattern without capture groups:
the list of non-overlapping matches, scanning left to right. -/
def reFindAll (r : RE) (s : String) : List String :=
  (findAllGo s.data.length r s.data).map (fun cs => String.mk cs)

/-- Sequence a list of regexes (used to spell out counted repetition). -/
def reSeqList (l : List RE) : RE :=
  l.foldr RE.seq RE.eps

/-! ## Python string/path helpers used by the sources -/

/-- Assoc-list lookup, the model of a Python `dict` built from literal
keys (`d.get(k)` / `k in d`). -/
def alookup {α : Type} (l : List (String × α)) (key : String) : Option α :=
  match l with
  | [] => none
  | (k, v) :: rest => if k = key then some v else alookup rest key

/-- `needle` occurs as a contiguous sublist of `hay`
(Python's `needle in hay` on strings). -/
def listContainsSub (hay needle : List Char) : Bool :=
  match hay with
  | [] => needle.isEmpty
  | _ :: tail => needle.isPrefixOf hay || listContainsSub tail needle

/-- Python `needle in hay` for strings. -/
def strContainsSub (hay needle : String) : Bool :=
  listContainsSub hay.data needle.data

/-- Python `s.lower()` (ASCII range, which is all the sources use),
spelled as a character map so that it evaluates inside the kernel. -/
def pyLower (s : String) : String :=
  String.mk (s.data.map Char.toLower)

/-- Case-insensitive containment, the effect of
`re.search(literal, text, re.IGNORECASE)` for a pattern with no regex
metacharacters. -/
def strContainsCI (hay needle : String) : Bool :=
  strContainsSub (pyLower hay) (pyLower needle)

/-- The last component of a path: the characters after the final `/`. -/
def lastPathComponent (p : List Char) : List Char :=
  ((p.reverse).takeWhile (fun c => c ≠ '/')).reverse

/-- Suffix of a bare file name, CPython's rule for `PurePath.suffix`:
with `i` the index of the last dot, the suffix is `name[i:]` when
`0 < i < len(name) - 1`, and empty otherwise (so `.bashrc` and `file.`
have no suffix). -/
def pathSuffixName (name : List Char) : List Char :=
  let rev := name.reverse
  let j := rev.findIdx (fun c => c = '.')
  if 0 < j ∧ j + 1 < rev.length then '.' :: (rev.take j).reverse else []

/-- The extension of the last path component, dot included
(`pathlib.Path(p).suffix`). -/
def pathSuffix (p : String) : String :=
  String.mk (pathSuffixName (lastPathComponent p.data))

/-! ## Error-code extraction (`JSONConfigClassifier._extract_error_codes_json`)

The classifier loads `error_code_patterns.json` into
`self.error_patterns` and, for the manufacturer at hand, runs every
configured pattern over the content with `re.findall(..., re.IGNORECASE)`,
keeps a match only when `re.match(validation_regex, match)` succeeds, and
attaches a description/category from the examples table (defaulting to
"Unknown error"/"unknown"). -/

/-- One entry of an `examples` table in `error_code_patterns.json`. -/
structure ErrorExample : Type where
  code : String
  description : String
  category : String
deriving Repr, DecidableEq

/-- Per-manufacturer section of `error_code_patterns.json`: the raw
patterns, the validation regex as used via `re.match` (so anchored at the
start; the configured regex carries `^...$`, hence the `RE.eos` tail in
the concrete value below), and the examples table. -/
structure ManuErrorConfig : Type where
  patterns : List RE
  validation_regex : RE
  examples : List ErrorExample
deriving Repr

/-- One extracted error code, the dict appended by
`_extract_error_codes_json`. -/
structure ErrorCodeHit : Type where
  code : String
  description : String
  category : String
  manufacturer : String
deriving Repr, DecidableEq

/-- Description/category attachment: the first example with the matching
code wins, else `("Unknown error", "unknown")` — the inner `for example
in examples` loop with `break`. -/
def errorDescriptionFor (examples : List ErrorExample) (code : String) :
    String × String :=
  match examples with
  | [] => ("Unknown error", "unknown")
  | e :: rest =>
    if e.code = code then (e.description, e.category)
    else errorDescriptionFor rest code

/-- `JSONConfigClassifier._extract_error_codes_json(content, manufacturer)`
over a loaded `error_patterns` table. -/
def extract_error_codes_json (error_patterns : List (String × ManuErrorConfig))
    (content : String) (manufacturer : String) : List ErrorCodeHit :=
  match alookup error_patterns (pyLower manufacturer) with
  | none => []
  | some cfg =>
    cfg.patterns.flatMap (fun p =>
      (reFindAll p content).filterMap (fun m =>
        if reMatchPy cfg.validation_regex m then
          some { code := m
                 description := (errorDescriptionFor cfg.examples m).1
                 category := (errorDescriptionFor cfg.examples m).2
                 manufacturer := manufacturer }
        else none))

/-- The regex `\d{2,3}\.\d{2}`: two digits, a greedy optional third,
a literal dot, two digits. -/
def lexmarkCodeRE : RE :=
  reSeqList [RE.digit, RE.digit, RE.opt RE.digit, RE.lit '.', RE.digit, RE.digit]

/-- The regex `^\d{2,3}\.\d{2}$` as consumed by `re.match`: same body with
an end-of-subject anchor (`re.match` provides the `^`). -/
def lexmarkValidationRE : RE :=
  reSeqList [RE.digit, RE.digit, RE.opt RE.digit, RE.lit '.', RE.digit, RE.digit,
    RE.eos]

/-- Modelled from the spec: `error_code_patterns.json` is not under
`src/`; its Lexmark section is taken from the spec's format-rules table
(error-code shape `\d{2,3}\.\d{2}`, validation regex `^\d{2,3}\.\d{2}$`)
and the spec's example codes for scenario 3. -/
def lexmarkErrorConfig : ManuErrorConfig where
  patterns := [lexmarkCodeRE]
  validation_regex := lexmarkValidationRE
  examples :=
    [ { code := "121.54", description := "Fuser error", category := "fuser" },
      { code := "200.03", description := "Paper jam", category := "paper_jam" } ]

/-- Modelled from the spec: the `error_code_patterns` table restricted to
the manufacturer exercised by the claims. -/
def spec_error_patterns : List (String × ManuErrorConfig) :=
  [("lexmark", lexmarkErrorConfig)]

/-- The Lexmark text of spec scenario 3: contains the five tokens
`121.54, 200.03, 84.00, 88.00, 121.0X`. -/
def lexmarkScenarioText : String :=
  "Error codes: 121.54, 200.03, 84.00, 88.00, 121.0X"

example :
    (extract_error_codes_json spec_error_patterns lexmarkScenarioText
        "lexmark").map (fun h => h.code) =
      ["121.54", "200.03", "84.00", "88.00"] := by decide

/-! ## Model extraction with placeholders (`IntelligentModelExtractor`) -/

/-- The static known-models table,
`IntelligentModelExtractor._load_known_models`. -/
def known_models_db : List (String × List (String × List String)) :=
  [("konica_minolta",
     [("i-series",
        ["C450i", "C451i", "C550i", "C551i", "C650i", "C651i", "C750i", "C751i"]),
      ("c-series", ["C450", "C550", "C650", "C750", "C850", "C950"]),
      ("bizhub", ["bizhub C450", "bizhub C550", "bizhub C650", "bizhub C750"])]),
   ("hp",
     [("laserjet_pro",
        ["HP LaserJet Pro 400", "HP LaserJet Pro 500", "HP LaserJet Pro 600"]),
      ("laserjet", ["HP 400", "HP 500", "HP 600"]),
      ("deskjet_2000", ["DeskJet 2130", "DeskJet 2132", "DeskJet 2134"])]),
   ("lexmark",
     [("cs_series", ["Lexmark CS725", "Lexmark CS820", "Lexmark CS925"])])]

/-- `IntelligentModelExtractor._is_known_model`: look the model up under
the given manufacturer, then — unconditionally — under every
manufacturer (the second loop always runs when the first found
nothing). -/
def is_known_model (model : String) (manufacturer : Option String) : Bool :=
  (match manufacturer with
   | some m =>
     match alookup known_models_db m with
     | some tbl => tbl.any (fun sm => sm.2.contains model)
     | none => false
   | none => false) ||
  known_models_db.any (fun mt => mt.2.any (fun sm => sm.2.contains model))

/-- All known models listed for a manufacturer (the "known-models table
for the manufacturer" the claims quantify over). -/
def known_models_for (manufacturer : Option String) : List String :=
  match manufacturer with
  | some m =>
    match alookup known_models_db m with
    | some tbl => tbl.flatMap (fun sm => sm.2)
    | none => []
  | none => []

/-- One entry of `model_placeholder_patterns.json`
(`placeholder_types.<type>.examples[i]`).  The `pattern` field is the raw
regex string, as stored in the JSON (the source treats it as a string:
`_generate_models_from_pattern` does substring tests on it). -/
structure PlaceholderCfgExample : Type where
  placeholder : String
  pattern : String
  manufacturer : Option String
  series : Option String
  actual_models : List String
deriving Repr, DecidableEq

/-- A detected placeholder, the dict appended by
`IntelligentModelExtractor._extract_placeholders`. -/
structure DetectedPlaceholder : Type where
  placeholder : String
  pattern : String
  ptype : String
  manufacturer : Option String
  series : Option String
  actual_models : List String
deriving Repr, DecidableEq

/-- Modelled from the spec: `model_placeholder_patterns.json` is not
under `src/`.  The placeholder shapes `Cxx0i`/`Cxx1i`, their
actual-models lists and the konica-minolta/i-series attribution are the
spec's own example (§4.8 and scenario 2); each `pattern` is the regex for
its shape, two wildcard digits between the literal frame (in the JSON:
`C\d{2}0i`, written here with escaped braces). -/
def spec_placeholder_types : List (String × List PlaceholderCfgExample) :=
  [("i_series_placeholders",
    [ { placeholder := "Cxx0i", pattern := "C\\d\x7b2\x7d0i",
        manufacturer := some "konica_minolta", series := some "i-series",
        actual_models := ["C450i", "C550i", "C650i", "C750i"] },
      { placeholder := "Cxx1i", pattern := "C\\d\x7b2\x7d1i",
        manufacturer := some "konica_minolta", series := some "i-series",
        actual_models := ["C451i", "C551i", "C651i", "C751i"] } ])]

/-- The meaning of the two configured pattern strings as regexes (used
only to state "the expanded model matches `P.pattern`"). -/
def placeholderPatternRE (pattern : String) : Option RE :=
  if pattern = "C\\d\x7b2\x7d0i" then
    some (reSeqList [RE.lit 'C', RE.digit, RE.digit, RE.lit '0', RE.lit 'i'])
  else if pattern = "C\\d\x7b2\x7d1i" then
    some (reSeqList [RE.lit 'C', RE.digit, RE.digit, RE.lit '1', RE.lit 'i'])
  else none

/-- `IntelligentModelExtractor._extract_placeholders`: for every
configured example whose placeholder text occurs in the document
(`re.search(placeholder, text, re.IGNORECASE)`, a literal pattern),
record the placeholder with its pattern, type and actual-models list. -/
def extract_placeholders (cfg : List (String × List PlaceholderCfgExample))
    (text : String) : List DetectedPlaceholder :=
  cfg.flatMap (fun ty =>
    ty.2.filterMap (fun ex =>
      if strContainsCI text ex.placeholder then
        some { placeholder := ex.placeholder, pattern := ex.pattern,
               ptype := ty.1, manufacturer := ex.manufacturer,
               series := ex.series, actual_models := ex.actual_models }
      else none))

/-- `IntelligentModelExtractor._generate_models_from_pattern`: substring
tests on the pattern string choose a family; candidates run over
hundreds 4–7 and tens 0–9 and are kept when `_is_known_model` accepts
them. -/
def generate_models_from_pattern (pattern : String)
    (manufacturer : Option String) : List String :=
  if strContainsSub pattern "C\\d\x7b3\x7d0i" then
    (List.range' 4 4).flatMap (fun hund =>
      (List.range 10).filterMap (fun tens =>
        let model := "C" ++ toString hund ++ toString tens ++ "0i"
        if is_known_model model manufacturer then some model else none))
  else if strContainsSub pattern "C\\d\x7b3\x7d1i" then
    (List.range' 4 4).flatMap (fun hund =>
      (List.range 10).filterMap (fun tens =>
        let model := "C" ++ toString hund ++ toString tens ++ "1i"
        if is_known_model model manufacturer then some model else none))
  else []

/-- `IntelligentModelExtractor._expand_placeholders`: a placeholder's
actual-models list is emitted as is; only when it is empty are models
generated from the pattern. -/
def expand_placeholders (placeholders : List DetectedPlaceholder)
    (manufacturer : Option String) : List String :=
  placeholders.flatMap (fun p =>
    if p.actual_models.isEmpty then
      generate_models_from_pattern p.pattern manufacturer
    else p.actual_models)

example :
    expand_placeholders
      (extract_placeholders spec_placeholder_types
        "i-series (bizhub Cxx0i/Cxx1i)") (some "konica_minolta") =
    ["C450i", "C550i", "C650i", "C750i", "C451i", "C551i", "C651i", "C751i"] := by
  decide

/-! ## Hybrid classification (`JSONConfigClassifier._hybrid_classification`)

`_analyze_filename` and `_analyze_content` both produce a dict with the
same keys; `classify_document` passes the content dict only when the
content is non-blank, otherwise `content_result` stays the empty dict
(falsy) — modelled as an `Option`. -/

/-- Result dict of `_analyze_filename` / `_analyze_content`. -/
structure PassResult : Type where
  manufacturer : String
  manufacturer_confidence : ℚ
  document_type : String
  document_type_confidence : ℚ
  models : List String
  version : String
  confidence : ℚ
deriving Repr, DecidableEq

/-- Result dict of `_hybrid_classification`. -/
structure HybridClassification : Type where
  document_type : String
  document_type_confidence : ℚ
  manufacturer : String
  manufacturer_confidence : ℚ
  series : String
  series_confidence : ℚ
  models : List String
  version : String
  version_confidence : ℚ
deriving Repr, DecidableEq

/-- `JSONConfigClassifier._hybrid_classification(filename_result,
content_result)`.  `list(set(a + b))` keeps exactly the elements of
`a + b`; it is modelled by `dedup`, which preserves membership. -/
def hybrid_classification (filename_result : PassResult)
    (content_result : Option PassResult) : HybridClassification :=
  let manu :=
    if filename_result.manufacturer_confidence ≥ 8/10 then
      (filename_result.manufacturer, filename_result.manufacturer_confidence)
    else
      match content_result with
      | some c =>
        if c.manufacturer_confidence > 0 then (c.manufacturer, c.manufacturer_confidence)
        else (filename_result.manufacturer, filename_result.manufacturer_confidence)
      | none => (filename_result.manufacturer, filename_result.manufacturer_confidence)
  let dtype :=
    if filename_result.document_type_confidence ≥ 8/10 then
      (filename_result.document_type, filename_result.document_type_confidence)
    else
      match content_result with
      | some c =>
        if c.document_type_confidence > 0 then (c.document_type, c.document_type_confidence)
        else (filename_result.document_type, filename_result.document_type_confidence)
      | none => (filename_result.document_type, filename_result.document_type_confidence)
  let all_models :=
    (filename_result.models ++
      (match content_result with | some c => c.models | none => [])).dedup
  let ver :=
    match content_result with
    | some c =>
      if c.version ≠ "" then (c.version, (8/10 : ℚ))
      else if filename_result.version ≠ "" then (filename_result.version, (6/10 : ℚ))
      else ("", (0 : ℚ))
    | none =>
      if filename_result.version ≠ "" then (filename_result.version, (6/10 : ℚ))
      else ("", (0 : ℚ))
  { document_type := dtype.1, document_type_confidence := dtype.2,
    manufacturer := manu.1, manufacturer_confidence := manu.2,
    series := "unknown", series_confidence := 0,
    models := all_models,
    version := ver.1, version_confidence := ver.2 }

/-! ## Chunking-strategy selection

Two variants exist: `JSONConfigClassifier._determine_chunking_strategy`
(document-type entry first, then manufacturer entry, then default) and
`SupabaseDocumentProcessor._determine_chunking_strategy` (manufacturer
entry first, keyed on `default_strategy`, then document-type entry, keyed
on `strategy`, then the default strategy table).  Both read the loaded
`chunk_settings.json`, modelled as an explicit record parameter. -/

/-- A named strategy in `chunk_settings.strategies`. -/
structure StrategyDef : Type where
  chunk_size : Nat
  chunk_overlap : Nat
  strategy : String
deriving Repr, DecidableEq

/-- A `document_type_specific` entry; the JSON may carry either a
`strategy` or a `preferred_strategy` key (the two variants read different
ones), plus optional sizes. -/
structure DocTypeChunkSettings : Type where
  strategy : Option String
  preferred_strategy : Option String
  chunk_size : Option Nat
  chunk_overlap : Option Nat
deriving Repr, DecidableEq

/-- A `manufacturer_specific` entry. -/
structure ManuChunkSettings : Type where
  default_strategy : Option String
  preferred_strategy : Option String
  chunk_size_multiplier : Option ℚ
deriving Repr, DecidableEq

/-- The loaded `chunk_settings` section of `chunk_settings.json`. -/
structure ChunkSettings : Type where
  default_strategy : Option String
  strategies : List (String × StrategyDef)
  document_type_specific : List (String × DocTypeChunkSettings)
  manufacturer_specific : List (String × ManuChunkSettings)
deriving Repr, DecidableEq

/-- Which sub-dict a returned chunking choice carried as `settings`. -/
inductive SettingsSource : Type
  | docType (s : DocTypeChunkSettings)
  | manufacturer (s : ManuChunkSettings)
  | defaults
deriving Repr, DecidableEq

/-- Result dict of the classifier variant. -/
structure ChunkingChoice : Type where
  recommended_strategy : String
  chunk_size : Int
  chunk_overlap : Int
  settings : SettingsSource
deriving Repr, DecidableEq

/-- Python `int()` on a rational: truncation toward zero. -/
def pyIntOfRat (q : ℚ) : Int :=
  if q < 0 then ⌈q⌉ else ⌊q⌋

/-- `JSONConfigClassifier._determine_chunking_strategy`: document-type
entry first, then manufacturer entry (sizes scaled by the multiplier and
truncated by `int(...)`), then the default. -/
def classifier_determine_chunking_strategy (chunk_settings : ChunkSettings)
    (document_type manufacturer : String) : ChunkingChoice :=
  let default_strategy := chunk_settings.default_strategy.getD "contextual_chunking"
  match alookup chunk_settings.document_type_specific document_type with
  | some settings =>
    { recommended_strategy := settings.preferred_strategy.getD default_strategy,
      chunk_size := (settings.chunk_size.getD 1000 : Int),
      chunk_overlap := (settings.chunk_overlap.getD 150 : Int),
      settings := SettingsSource.docType settings }
  | none =>
    match alookup chunk_settings.manufacturer_specific manufacturer with
    | some settings =>
      let multiplier := settings.chunk_size_multiplier.getD 1
      { recommended_strategy := settings.preferred_strategy.getD default_strategy,
        chunk_size := pyIntOfRat (1000 * multiplier),
        chunk_overlap := pyIntOfRat (150 * multiplier),
        settings := SettingsSource.manufacturer settings }
    | none =>
      { recommended_strategy := default_strategy, chunk_size := 1000,
        chunk_overlap := 150, settings := SettingsSource.defaults }

/-- Which dict the supabase variant returns (it returns the raw sub-dicts
unchanged, so the choice is the whole result). -/
inductive SupaChunkingChoice : Type
  | manufacturerSettings (s : ManuChunkSettings)
  | docTypeSettings (s : DocTypeChunkSettings)
  | strategyDef (s : StrategyDef)
  | builtinDefault
deriving Repr, DecidableEq

/-- Python truthiness of `d.get(key)` for a string-valued key. -/
def truthyOptStr : Option String → Bool
  | some s => !(s == "")
  | none => false

/-- Tail of the supabase variant after the manufacturer check: the
document-type entry (keyed on `strategy`), else
`strategies.get(default_strategy, {...hard-coded default...})`. -/
def supabase_determine_chunking_rest (chunk_settings : ChunkSettings)
    (document_type default_strategy : String) : SupaChunkingChoice :=
  let doc_type_branch :=
    match alookup chunk_settings.document_type_specific document_type with
    | some ds => if truthyOptStr ds.strategy then
        some (SupaChunkingChoice.docTypeSettings ds) else none
    | none => none
  match doc_type_branch with
  | some choice => choice
  | none =>
    match alookup chunk_settings.strategies default_strategy with
    | some sd => SupaChunkingChoice.strategyDef sd
    | none => SupaChunkingChoice.builtinDefault

/-- `SupabaseDocumentProcessor._determine_chunking_strategy`: the
manufacturer entry is consulted first and returned whole when its
`default_strategy` key is truthy; only then the document-type entry
(keyed on `strategy`); only then the default strategy table.  (On a
config-load exception the source returns the hard-coded default; the
loaded config is a parameter here.) -/
def supabase_determine_chunking_strategy (chunk_settings : ChunkSettings)
    (document_type manufacturer : String) : SupaChunkingChoice :=
  let default_strategy := chunk_settings.default_strategy.getD "contextual_chunking"
  match alookup chunk_settings.manufacturer_specific manufacturer with
  | some ms =>
    if truthyOptStr ms.default_strategy then
      SupaChunkingChoice.manufacturerSettings ms
    else supabase_determine_chunking_rest chunk_settings document_type default_strategy
  | none => supabase_determine_chunking_rest chunk_settings document_type default_strategy

/-- A configuration with both a document-type-specific and a
manufacturer-specific entry, the manufacturer entry carrying a
`default_strategy` key (any JSON value is possible there; this is the
shape the supabase variant reads). -/
def chunkSettingsBothOverrides : ChunkSettings where
  default_strategy := some "contextual_chunking"
  strategies :=
    [("contextual_chunking",
      { chunk_size := 1000, chunk_overlap := 150, strategy := "contextual_chunking" })]
  document_type_specific :=
    [("service_manual",
      { strategy := some "service_manual", preferred_strategy := some "service_manual",
        chunk_size := some 1200, chunk_overlap := some 200 })]
  manufacturer_specific :=
    [("hp",
      { default_strategy := some "hp_tuned", preferred_strategy := some "hp_tuned",
        chunk_size_multiplier := some (6/5) })]

/-! ## Object store (`SupabaseStorage.upload_file`)

The store is a set of present object keys plus a log of the write
requests issued (the source issues `client.post` for the upload; the
spec calls the write a PUT).  The HEAD probe answers 200 exactly when
the key is present; the SHA-256 of the bytes is a function parameter.
The `content_type` argument of the source influences only request
headers, never the key or the URL, and is omitted. -/

/-- Object-store state: keys present (as `bucket/filename`) and the
ordered log of write (PUT) requests issued. -/
structure StorageState : Type where
  objects : List String
  putLog : List String
deriving Repr, DecidableEq

/-- `SupabaseStorage.upload_file(bucket_name, file_path, file_content)`:
the object key is `sha256(bytes) + Path(file_path).suffix`; a HEAD for
the key comes first and a hit returns the existing URL with no write;
otherwise the write is issued (`writeOk` models its HTTP outcome; a
failed write returns `None` and stores nothing). -/
def upload_file (sha256 : List Nat → String) (supabase_url : String)
    (writeOk : Bool) (st : StorageState) (bucket_name file_path : String)
    (file_content : List Nat) : Option String × StorageState :=
  let unique_filename := sha256 file_content ++ pathSuffix file_path
  let objectKey := bucket_name ++ "/" ++ unique_filename
  let storage_url :=
    supabase_url ++ "/storage/v1/object/" ++ bucket_name ++ "/" ++ unique_filename
  if st.objects.contains objectKey then
    (some storage_url, st)
  else if writeOk then
    (some storage_url,
      { objects := st.objects ++ [objectKey], putLog := st.putLog ++ [objectKey] })
  else (none, st)

/-! ## Embedding generation

`_generate_ollama_embeddings` exists twice, with the same loop:
one `POST /api/embeddings` per text, appending `result["embedding"]` on
HTTP 200 and `[0.0] * 768` otherwise; any raised exception (transport
failure, or an `AttributeError` as in the supabase variant) makes the
outer `except` return `[[0.0] * 768 for _ in texts]`.  The endpoint is a
parameter: a response per request index, plus a transport flag. -/

/-- One response of the embeddings endpoint. -/
inductive EmbResp : Type
  | ok (embedding : List ℚ)
  | err (status : Nat)
deriving Repr, DecidableEq

/-- `ProductionConfig.model_config["embedding"]["model_name"]`. -/
def production_embedding_model_name : String := "embeddinggemma"

/-- `ProductionConfig.model_config["embedding"]["dimension"]`, the
advertised dimension of the configured embedding model. -/
def production_embedding_dimension : Nat := 768

/-- `ProductionDocumentProcessor._generate_ollama_embeddings(texts)`. -/
def production_generate_ollama_embeddings :
    Bool → (Nat → EmbResp) → List String → List (List ℚ)
  | true, resp, texts =>
    (List.range texts.length).map (fun i =>
      match resp i with
      | EmbResp.ok v => v
      | EmbResp.err _ => List.replicate 768 0)
  | false, _, texts => texts.map (fun _ => List.replicate 768 0)

/-- The attributes `SupabaseDocumentProcessor.__init__` assigns on the
instance (no method of the class assigns any other). -/
def supabase_init_attr_names : List String :=
  ["supabase_config", "supabase_storage", "db_pool", "classifier",
   "version_extractor", "model_extractor", "embedding_model", "stats"]

/-- Whether `self.ollama_base_url` resolves on a
`SupabaseDocumentProcessor` instance. -/
def supabase_has_ollama_base_url : Bool :=
  supabase_init_attr_names.contains "ollama_base_url"

/-- `SupabaseDocumentProcessor._generate_ollama_embeddings(texts)`: the
loop body reads `self.ollama_base_url`; when the attribute is missing the
first iteration raises `AttributeError`, the outer `except` catches it
and the fallback `[[0.0] * 768 for _ in texts]` is returned (an empty
`texts` never enters the loop and returns the empty list). -/
def supabase_generate_ollama_embeddings (transportOk : Bool)
    (resp : Nat → EmbResp) (texts : List String) : List (List ℚ) :=
  match supabase_has_ollama_base_url, texts with
  | true, texts => production_generate_ollama_embeddings transportOk resp texts
  | false, [] => []
  | false, t :: ts => (t :: ts).map (fun _ => List.replicate 768 0)

/-- A chunk dict as `_process_chunks_with_gpu` leaves it: the database id
assigned on insert and the text. -/
structure ChunkRec : Type where
  id : Nat
  text : String
deriving Repr, DecidableEq

/-- A row of `krai_intelligence.embeddings` as inserted by
`_generate_embeddings_with_gpu`: exactly the columns `chunk_id`,
`embedding` (the pgvector literal, kept as the vector itself),
`model_name`, `model_version`; `created_at` is the insert time. -/
structure EmbeddingRow : Type where
  chunk_id : Nat
  embedding : List ℚ
  model_name : String
  model_version : String
deriving Repr, DecidableEq

/-- `ProductionDocumentProcessor._generate_embeddings_with_gpu`: one
endpoint call per chunk text, then one inserted row per (chunk,
embedding) pair, with the configured model name and version "latest". -/
def generate_embeddings_with_gpu (transportOk : Bool) (resp : Nat → EmbResp)
    (chunks : List ChunkRec) : List EmbeddingRow :=
  let batch_embeddings :=
    production_generate_ollama_embeddings transportOk resp
      (chunks.map (fun c => c.text))
  (chunks.zip batch_embeddings).map (fun cv =>
    { chunk_id := cv.1.id, embedding := cv.2,
      model_name := production_embedding_model_name,
      model_version := "latest" })

/-! ## `ProductionDocumentProcessor._process_images_with_vision` — twice

The class body defines the method twice; Python's class construction
assigns the second definition over the first, so only the later one is
callable.  The first (lines 350–439) ends by inserting one row per
processed image into `krai_content.images`; the second (lines 713–774)
deduplicates by hash, analyses and uploads, and performs no database
write at all — which its Lean type makes visible. -/

/-- A row of `krai_content.images` as the first definition inserts it. -/
structure ImageRow : Type where
  document_id : Option Nat
  image_index : Nat
  storage_url : Option String
  file_hash : Option String
  ai_description : String
deriving Repr, DecidableEq

/-- One element of the list both definitions return. -/
structure ProcessedImage : Type where
  image_index : Nat
  storage_url : Option String
  hash : Option String
deriving Repr, DecidableEq

/-- Loop of the first definition (no dedup): a vision response for image
`i` (`some analysis` on HTTP 200, `none` otherwise — a non-200 response
appends nothing) leads to an upload of `image_{i}.png` and a result
record. -/
def vision_v1_loop (sha256 : List Nat → String) (supabase_url : String)
    (vision : Nat → Option String) :
    StorageState → Nat → List (List Nat) → StorageState × List ProcessedImage
  | st, _, [] => (st, [])
  | st, i, img :: rest =>
    match vision i with
    | some _ =>
      let up := upload_file sha256 supabase_url true st "krai-error-images"
        ("image_" ++ toString i ++ ".png") img
      let tail := vision_v1_loop sha256 supabase_url vision up.2 (i + 1) rest
      (tail.1,
        { image_index := i, storage_url := up.1, hash := up.1.map (fun _ => sha256 img) } :: tail.2)
    | none => vision_v1_loop sha256 supabase_url vision st (i + 1) rest

/-- The first definition (lines 350–439): after the loop, one
`INSERT INTO krai_content.images` per result, keyed on
`self.current_document_id` (its `document_id` parameter, defaulting to
`None`).  The analysis text stored is the vision response. -/
def process_images_with_vision_v1 (sha256 : List Nat → String)
    (supabase_url : String) (vision : Nat → Option String)
    (st : StorageState) (images_table : List ImageRow)
    (document_id : Option Nat) (images : List (List Nat)) :
    StorageState × List ImageRow × List ProcessedImage :=
  let run := vision_v1_loop sha256 supabase_url vision st 0 images
  let inserted := run.2.map (fun r =>
    { document_id := document_id, image_index := r.image_index,
      storage_url := r.storage_url, file_hash := r.hash,
      ai_description := (vision r.image_index).getD "" })
  (run.1, images_table ++ inserted, run.2)

/-- Loop of the second definition: dedup on `sha256(image_data)` via the
`seen_hashes` set, then analysis and an upload of `image_{i}.jpg`. -/
def vision_v2_loop (sha256 : List Nat → String) (supabase_url : String) :
    StorageState → List String → Nat → List (List Nat) →
      StorageState × List ProcessedImage
  | st, _, _, [] => (st, [])
  | st, seen, i, img :: rest =>
    let image_hash := sha256 img
    if seen.contains image_hash then
      vision_v2_loop sha256 supabase_url st seen (i + 1) rest
    else
      let up := upload_file sha256 supabase_url true st "krai-error-images"
        ("image_" ++ toString i ++ ".jpg") img
      let tail := vision_v2_loop sha256 supabase_url up.2 (image_hash :: seen) (i + 1) rest
      (tail.1,
        { image_index := i, storage_url := up.1, hash := up.1.map (fun _ => image_hash) } :: tail.2)

/-- The second — and effective — definition (lines 713–774): its state
is the object store alone; no `krai_content.images` table appears in its
type because the method performs no database operation. -/
def process_images_with_vision_v2 (sha256 : List Nat → String)
    (supabase_url : String) (st : StorageState) (images : List (List Nat)) :
    StorageState × List ProcessedImage :=
  vision_v2_loop sha256 supabase_url st [] 0 images

/-- The two same-named method definitions, in class-body order. -/
inductive VisionMethodImpl : Type
  | firstDef
  | secondDef
deriving Repr, DecidableEq

/-- The `_process_images_with_vision` entries of the class body of
`ProductionDocumentProcessor`, in source order. -/
def production_class_body : List (String × VisionMethodImpl) :=
  [("_process_images_with_vision", VisionMethodImpl.firstDef),
   ("_process_images_with_vision", VisionMethodImpl.secondDef)]

/-- Python class construction: each `def` statement assigns into the
class dict, so the last definition under a name wins. -/
def effective_method (defs : List (String × VisionMethodImpl))
    (name : String) : Option VisionMethodImpl :=
  defs.foldl (fun acc nv => if nv.1 = name then some nv.2 else acc) none

/-- The resulting `krai_content.images` table after calling an
implementation: the first definition appends its inserts, the second
performs no database write. -/
def images_table_after (impl : VisionMethodImpl) (sha256 : List Nat → String)
    (supabase_url : String) (vision : Nat → Option String)
    (st : StorageState) (images_table : List ImageRow)
    (document_id : Option Nat) (images : List (List Nat)) : List ImageRow :=
  match impl with
  | VisionMethodImpl.firstDef =>
    (process_images_with_vision_v1 sha256 supabase_url vision st images_table
      document_id images).2.1
  | VisionMethodImpl.secondDef => images_table

/-! ## `ProductionDocumentProcessor.process_document`

The state machine of the production pipeline.  The PDF reader,
classifier, version extractor and model extractor are deterministic
functions of their inputs and enter as parameters;
`uuid.uuid4()` / `RETURNING id` are modelled by a fresh-id counter.
The pipeline performs **no** duplicate check: no hash is computed over
the bytes and no `find_document_by_hash` (or any `file_hash` column)
appears in `_store_document_in_db`'s INSERT. -/

/-- Python `str.strip()` on both ends. -/
def pyStrip (s : List Char) : List Char :=
  ((s.dropWhile Char.isWhitespace).reverse.dropWhile Char.isWhitespace).reverse

/-- `ProductionConfig.model_config["chunking"]["default_chunk_size"]`. -/
def production_default_chunk_size : Nat := 512

/-- `ProductionConfig.model_config["chunking"]["chunk_overlap"]`. -/
def production_chunk_overlap : Nat := 50

/-- The `while start < len(text)` loop of `_process_chunks_with_gpu`:
slice `text[start:start+chunk_size]`, keep it when its strip is
non-blank, continue at `end - chunk_overlap`.  The fuel only guards the
(configured-away) `chunk_size ≤ chunk_overlap` case, in which the Python
loop would not terminate. -/
def production_chunk_go (chunk_size chunk_overlap : Nat) (text : List Char) :
    Nat → Nat → List (List Char)
  | 0, _ => []
  | fuel + 1, start =>
    if start < text.length then
      let piece := (text.drop start).take chunk_size
      let rest := production_chunk_go chunk_size chunk_overlap text fuel
        (start + chunk_size - chunk_overlap)
      if (pyStrip piece).isEmpty then rest else piece :: rest
    else []

/-- Character-window chunking of `_process_chunks_with_gpu`. -/
def production_chunk_text (chunk_size chunk_overlap : Nat) (text : String) :
    List String :=
  (production_chunk_go chunk_size chunk_overlap text.data (text.data.length + 1) 0).map
    (fun cs => String.mk cs)

/-- A row of `krai_core.documents` as `_store_document_in_db` inserts it
(there is no `file_hash` column and no progress column in this variant;
`created_at`/`updated_at` are insert times). -/
structure ProdDocumentRow : Type where
  id : Nat
  file_name : String
  document_type : String
  manufacturer : String
  version : String
  models : List String
  pages : Nat
  storage_url : String
  size_bytes : Nat
  processing_status : String
deriving Repr, DecidableEq

/-- The `document_data` dict `_store_document_in_db` builds: the status
written is `"completed"`, before any chunk or embedding exists. -/
def production_document_data (document_id : Nat) (file_name : String)
    (document_type manufacturer version : String) (models : List String)
    (pages : Nat) (storage_url : String) (size_bytes : Nat) : ProdDocumentRow :=
  { id := document_id, file_name := file_name, document_type := document_type,
    manufacturer := manufacturer, version := version, models := models,
    pages := pages, storage_url := storage_url, size_bytes := size_bytes,
    processing_status := "completed" }

/-- A row of `krai_intelligence.chunks` (production variant). -/
structure ProdChunkRow : Type where
  id : Nat
  document_id : Nat
  text_chunk : String
  chunk_index : Nat
  processing_status : String
deriving Repr, DecidableEq

/-- Database and object-store state threaded through the production
pipeline; `nextId` models the supply of fresh uuids / serial ids. -/
structure ProdState : Type where
  documents : List ProdDocumentRow
  chunks : List ProdChunkRow
  embeddings : List EmbeddingRow
  storage : StorageState
  nextId : Nat
deriving Repr, DecidableEq

/-- Result of `ProductionDocumentProcessor.process_document`: a
`"success"` dict with the new document id, or an `"error"` dict.  There
is no duplicate variant — the method has no path returning one. -/
inductive ProdResult : Type
  | success (document_id : Nat)
  | error (message : String)
deriving Repr, DecidableEq

/-- Output of `_classify_document` (the fields the pipeline reads). -/
structure ProdClassification : Type where
  document_type : String
  manufacturer : String
deriving Repr, DecidableEq

/-- The deterministic stage functions of the production pipeline, as
parameters: PyPDF2 extraction, `_classify_document`,
`JSONVersionExtractor.extract_version`,
`IntelligentModelExtractor.extract_models` (its `models` list), and the
two endpoint behaviours. -/
structure ProdStages : Type where
  sha256 : List Nat → String
  supabase_url : String
  extract_text : List Nat → String
  extract_pages : List Nat → Nat
  extract_images : List Nat → List (List Nat)
  classify : String → String → ProdClassification
  extract_version : String → String → String
  extract_models : String → String → List String
  vision : Nat → Option String
  transportOk : Bool
  resp : Nat → EmbResp

/-- `ProductionDocumentProcessor.process_document(file_path,
file_content)`, success path (storage writes modelled as succeeding).
Stage order as in the source: upload, extract, images (via the effective
— second — `_process_images_with_vision`), classify, metadata, store
document (fresh uuid, status `"completed"`), chunks, embeddings. -/
def prod_process_document (g : ProdStages) (st : ProdState)
    (file_path : String) (file_content : List Nat) : ProdResult × ProdState :=
  let up := upload_file g.sha256 g.supabase_url true st.storage
    "krai-documents" file_path file_content
  let text := g.extract_text file_content
  let pages := g.extract_pages file_content
  let vis := process_images_with_vision_v2 g.sha256 g.supabase_url up.2
    (g.extract_images file_content)
  let cls := g.classify file_path text
  let version := g.extract_version text cls.manufacturer
  let models := g.extract_models text cls.manufacturer
  let document_id := st.nextId
  let docRow := production_document_data document_id file_path
    cls.document_type cls.manufacturer version models pages
    (up.1.getD "") file_content.length
  let pieces := production_chunk_text production_default_chunk_size
    production_chunk_overlap text
  let chunkRows := pieces.enum.map (fun ie =>
    { id := document_id + 1 + ie.1, document_id := document_id,
      text_chunk := ie.2, chunk_index := ie.1,
      processing_status := "completed" : ProdChunkRow })
  let embRows := generate_embeddings_with_gpu g.transportOk g.resp
    (chunkRows.map (fun r => { id := r.id, text := r.text_chunk }))
  (ProdResult.success document_id,
    { documents := st.documents ++ [docRow],
      chunks := st.chunks ++ chunkRows,
      embeddings := st.embeddings ++ embRows,
      storage := vis.1,
      nextId := document_id + 1 + pieces.length })

/-! ## `SupabaseDocumentProcessor.process_document`

This variant does deduplicate: it hashes the bytes first and returns a
`duplicate` result from `_check_duplicate` before any upload.  Its
`_store_document_with_storage` however returns the dict
`{'document_id': …, 'status': 'success'}` rather than the raw id, and
that dict is what the later stages and the success result carry
(`StoreDocResult` below); and the row it inserts already has
`processing_status = 'completed'`, `processing_progress = 100`.  The
deterministic stages enter as parameters as before. -/

/-- A row of `krai_core.documents` as
`_store_document_with_storage` inserts it (`metadata` json omitted;
`storage_path` equals `storage_url` in the source). -/
structure SupaDocumentRow : Type where
  id : Nat
  file_name : String
  file_hash : String
  storage_url : String
  size_bytes : Nat
  total_pages : Nat
  document_type : String
  manufacturer_id : Nat
  language : String
  processing_status : String
  processing_progress : Nat
  cpmd_version : String
deriving Repr, DecidableEq

/-- The `document_data` dict of `_store_document_with_storage`, with the
database-assigned id: status `"completed"`, progress `100`, language
`"en"` are literals in the source. -/
def supabase_document_data (id : Nat) (file_name file_hash storage_url : String)
    (size_bytes total_pages : Nat) (document_type : String)
    (manufacturer_id : Nat) (cpmd_version : String) : SupaDocumentRow :=
  { id := id, file_name := file_name, file_hash := file_hash,
    storage_url := storage_url, size_bytes := size_bytes,
    total_pages := total_pages, document_type := document_type,
    manufacturer_id := manufacturer_id, language := "en",
    processing_status := "completed", processing_progress := 100,
    cpmd_version := cpmd_version }

/-- The dict `_store_document_with_storage` returns (not the raw id). -/
structure StoreDocResult : Type where
  document_id : Nat
  status : String
deriving Repr, DecidableEq

/-- A row of `krai_intelligence.chunks` (supabase variant).  The value
inserted in the `document_id` column is the whole store-result dict —
the source passes `_store_document_with_storage`'s return value on — so
the reference field carries `StoreDocResult`. -/
structure SupaChunkRow : Type where
  id : Nat
  document_ref : StoreDocResult
  chunk_index : Nat
  text_chunk : String
  processing_status : String
deriving Repr, DecidableEq

/-- State of the supabase pipeline: the document, chunk and embedding
tables, the manufacturers table (`_get_or_create_manufacturer`), the
object store, and the fresh-id supply. -/
structure SupaState : Type where
  documents : List SupaDocumentRow
  chunks : List SupaChunkRow
  embeddings : List EmbeddingRow
  manufacturers : List (String × Nat)
  storage : StorageState
  nextId : Nat
deriving Repr, DecidableEq

/-- Result of `SupabaseDocumentProcessor.process_document`: `duplicate`
with the existing row's id, or `success` carrying what the pipeline put
under `document_id` (the store-result dict) and the storage URL. -/
inductive SupaResult : Type
  | duplicate (document_id : Nat)
  | success (result : StoreDocResult) (storage_url : String)
  | error (message : String)
deriving Repr, DecidableEq

/-- `_get_or_create_manufacturer`: look the name up, else insert with a
fresh id. -/
def get_or_create_manufacturer (st : SupaState) (name : String) :
    Nat × SupaState :=
  match alookup st.manufacturers name with
  | some mid => (mid, st)
  | none =>
    (st.nextId,
      { st with manufacturers := st.manufacturers ++ [(name, st.nextId)],
                nextId := st.nextId + 1 })

/-- The deterministic stage functions of the supabase pipeline
(PyMuPDF extraction, classifier, version extractor; `_process_chunks`'s
strategy selection and chunkers are abstracted as a text-splitting
function of the text and the classification). -/
structure SupaStages : Type where
  sha256 : List Nat → String
  supabase_url : String
  extract_text : List Nat → String
  extract_pages : List Nat → Nat
  extract_images : List Nat → List (List Nat)
  classify : String → String → ProdClassification
  extract_version : String → String → String
  chunkFn : String → ProdClassification → List String
  transportOk : Bool
  resp : Nat → EmbResp

/-- `SupabaseDocumentProcessor.process_document(file_path)`:
hash and duplicate check first (`_check_duplicate` returns the first row
with the hash); then upload, extraction, image uploads
(`_process_and_upload_images`, names ending in `.png`), classification,
version, store (status `"completed"`, progress `100`), chunks (indexed by
enumeration), embeddings (the supabase `_generate_ollama_embeddings`,
model name `"embeddinggemma:300m"`). -/
def supa_process_document (g : SupaStages) (st : SupaState)
    (file_name : String) (file_content : List Nat) : SupaResult × SupaState :=
  let file_hash := g.sha256 file_content
  match st.documents.find? (fun d => d.file_hash == file_hash) with
  | some existing => (SupaResult.duplicate existing.id, st)
  | none =>
    let up := upload_file g.sha256 g.supabase_url true st.storage
      "krai-documents" file_name file_content
    let url := up.1.getD ""
    let text := g.extract_text file_content
    let pages := g.extract_pages file_content
    let storage2 := (g.extract_images file_content).foldl
      (fun acc img =>
        (upload_file g.sha256 g.supabase_url true acc "krai-error-images"
          "image.png" img).2)
      up.2
    let cls := g.classify file_name text
    let version := g.extract_version text cls.manufacturer
    let manu := get_or_create_manufacturer
      { st with storage := storage2 } cls.manufacturer
    let st1 := manu.2
    let document_id := st1.nextId
    let docRow := supabase_document_data document_id file_name file_hash url
      file_content.length pages cls.document_type manu.1 version
    let store_result : StoreDocResult :=
      { document_id := document_id, status := "success" }
    let pieces := g.chunkFn text cls
    let chunkRows := pieces.enum.map (fun ie =>
      { id := document_id + 1 + ie.1, document_ref := store_result,
        chunk_index := ie.1, text_chunk := ie.2,
        processing_status := "completed" : SupaChunkRow })
    let vectors := supabase_generate_ollama_embeddings g.transportOk g.resp
      pieces
    let embRows := (chunkRows.zip vectors).map (fun cv =>
      { chunk_id := cv.1.id, embedding := cv.2,
        model_name := "embeddinggemma:300m",
        model_version := "latest" : EmbeddingRow })
    (SupaResult.success store_result url,
      { documents := st1.documents ++ [docRow],
        chunks := st1.chunks ++ chunkRows,
        embeddings := st1.embeddings ++ embRows,
        manufacturers := st1.manufacturers,
        storage := st1.storage,
        nextId := document_id + 1 + pieces.length })

/-! ## Concrete fixtures

Concrete instantiations of the function parameters (hash, stage
functions, endpoints) used by the closed counterexamples and witnesses.
`testSha256` is any deterministic stand-in for
`hashlib.sha256(...).hexdigest()`: the properties proved or refuted
below do not depend on which function it is. -/

/-- A deterministic stand-in hash (length and byte-sum). -/
def testSha256 : List Nat → String :=
  fun b => "h" ++ toString b.length ++ "x" ++ toString (b.foldl (fun a n => a + n) 0)

/-- An empty object store. -/
def emptyStorage : StorageState where
  objects := []
  putLog := []

/-- An empty production database state. -/
def emptyProdState : ProdState where
  documents := []
  chunks := []
  embeddings := []
  storage := emptyStorage
  nextId := 0

/-- An empty supabase database state. -/
def emptySupaState : SupaState where
  documents := []
  chunks := []
  embeddings := []
  manufacturers := []
  storage := emptyStorage
  nextId := 0

/-- Concrete production stage functions: a one-page document with no
images whose text is blank (so no chunks arise), a fixed classification,
and an embeddings endpoint that always fails with HTTP 500. -/
def testProdStages : ProdStages where
  sha256 := testSha256
  supabase_url := "http://supabase.local"
  extract_text := fun _ => ""
  extract_pages := fun _ => 1
  extract_images := fun _ => []
  classify := fun _ _ => { document_type := "service_manual", manufacturer := "hp" }
  extract_version := fun _ _ => ""
  extract_models := fun _ _ => []
  vision := fun _ => none
  transportOk := true
  resp := fun _ => EmbResp.err 500

/-- Concrete supabase stage functions, same shape. -/
def testSupaStages : SupaStages where
  sha256 := testSha256
  supabase_url := "http://supabase.local"
  extract_text := fun _ => ""
  extract_pages := fun _ => 1
  extract_images := fun _ => []
  classify := fun _ _ => { document_type := "service_manual", manufacturer := "hp" }
  extract_version := fun _ _ => ""
  chunkFn := fun _ _ => []
  transportOk := true
  resp := fun _ => EmbResp.err 500

/-- The detected-placeholder record for `Cxx0i` under the spec-modelled
configuration. -/
def detectedCxx0i : DetectedPlaceholder where
  placeholder := "Cxx0i"
  pattern := "C\\d\x7b2\x7d0i"
  ptype := "i_series_placeholders"
  manufacturer := some "konica_minolta"
  series := some "i-series"
  actual_models := ["C450i", "C550i", "C650i", "C750i"]

/-- The detected-placeholder record for `Cxx1i` under the spec-modelled
configuration. -/
def detectedCxx1i : DetectedPlaceholder where
  placeholder := "Cxx1i"
  pattern := "C\\d\x7b2\x7d1i"
  ptype := "i_series_placeholders"
  manufacturer := some "konica_minolta"
  series := some "i-series"
  actual_models := ["C451i", "C551i", "C651i", "C751i"]

/-- Match an expanded model against the regex meaning of a configured
placeholder-pattern string. -/
def matchesPlaceholderPattern (pattern m : String) : Bool :=
  match placeholderPatternRE pattern with
  | some r => reFullmatch r m
  | none => false

/-! ## Theorems -/

/-- Helper: `List.contains` agrees with membership for strings. -/
theorem contains_iff_mem_str {l : List String} {a : String} :
    l.contains a = true ↔ a ∈ l :=
  List.elem_iff

/-- Helper: `find?` over a list extended by one element that satisfies
the predicate, when nothing before it does. -/
theorem find?_append_singleton {α : Type} (p : α → Bool) (l : List α) (a : α)
    (h : l.find? p = none) (ha : p a = true) : (l ++ [a]).find? p = some a := by
  induction l with
  | nil => simp [List.find?, ha]
  | cons x xs ih =>
    rw [List.find?_cons] at h
    rcases hx : p x with _ | _
    · rw [List.cons_append, List.find?_cons, hx]
      exact ih (by rw [hx] at h; exact h)
    · rw [hx] at h; cases h

/-- C10: `ProductionDocumentProcessor` defines
`_process_images_with_vision` twice; class construction makes the second
definition the effective one, and that definition performs no write to
`krai_content.images` — so no pipeline call ever inserts an image row,
and the INSERT in the first definition is unreachable. -/
theorem c10_images_table_untouched :
    effective_method production_class_body "_process_images_with_vision" =
      some VisionMethodImpl.secondDef ∧
    ∀ (sha256 : List Nat → String) (supabase_url : String)
      (vision : Nat → Option String) (st : StorageState)
      (images_table : List ImageRow) (document_id : Option Nat)
      (images : List (List Nat)),
      images_table_after VisionMethodImpl.secondDef sha256 supabase_url vision
        st images_table document_id images = images_table :=
  ⟨rfl, fun _ _ _ _ _ _ _ => rfl⟩

/-- Helper: the embeddings list is as long as the text list. -/
theorem production_embeddings_length (transportOk : Bool) (resp : Nat → EmbResp)
    (texts : List String) :
    (production_generate_ollama_embeddings transportOk resp texts).length =
      texts.length := by
  cases transportOk <;>
    simp only [production_generate_ollama_embeddings, List.length_map,
      List.length_range]

/-- Helper: every produced embedding is either the hard-coded zero
vector or a successful endpoint response. -/
theorem production_embeddings_mem (transportOk : Bool) (resp : Nat → EmbResp)
    (texts : List String) (v : List ℚ)
    (hv : v ∈ production_generate_ollama_embeddings transportOk resp texts) :
    v = List.replicate 768 0 ∨ ∃ i, resp i = EmbResp.ok v := by
  cases transportOk with
  | false =>
    simp only [production_generate_ollama_embeddings] at hv
    obtain ⟨t, _, h⟩ := List.mem_map.1 hv
    exact Or.inl h.symm
  | true =>
    simp only [production_generate_ollama_embeddings] at hv
    obtain ⟨i, _, h⟩ := List.mem_map.1 hv
    cases hresp : resp i with
    | ok w =>
      rw [hresp] at h
      dsimp only at h
      subst h
      exact Or.inr ⟨i, hresp⟩
    | err code =>
      rw [hresp] at h
      dsimp only at h
      exact Or.inl h.symm

/-- C3: on a `SupabaseDocumentProcessor` no `ollama_base_url` attribute
is ever assigned, so for every non-empty text list (and every endpoint
behaviour) `_generate_ollama_embeddings` raises on its first loop
iteration and the catch-all returns one 768-dimensional zero vector per
input text. -/
theorem c3_supabase_embeddings_all_zero (transportOk : Bool)
    (resp : Nat → EmbResp) (texts : List String) (hne : texts ≠ []) :
    (supabase_generate_ollama_embeddings transportOk resp texts).length =
      texts.length ∧
    ∀ v ∈ supabase_generate_ollama_embeddings transportOk resp texts,
      v = List.replicate 768 0 := by
  cases texts with
  | nil => exact absurd rfl hne
  | cons t ts =>
    have hfn : supabase_generate_ollama_embeddings transportOk resp (t :: ts) =
        (t :: ts).map (fun _ => List.replicate 768 0) := rfl
    rw [hfn, List.length_map]
    refine ⟨rfl, fun v hv => ?_⟩
    obtain ⟨x, _, h⟩ := List.mem_map.1 hv
    exact h.symm

/-- C3 witness at a concrete input. -/
theorem c3_witness :
    (supabase_generate_ollama_embeddings true (fun _ => EmbResp.err 500)
        ["one chunk", "another chunk"]).length = 2 ∧
    ∀ v ∈ supabase_generate_ollama_embeddings true (fun _ => EmbResp.err 500)
        ["one chunk", "another chunk"], v = List.replicate 768 0 :=
  c3_supabase_embeddings_all_zero true (fun _ => EmbResp.err 500)
    ["one chunk", "another chunk"] (by simp)

/-- C2 counterexample: a chunk whose embedding request fails permanently
(HTTP 500) is stored as the row `(chunk_id, [0.0]*768, "embeddinggemma",
"latest")` — and that run is indistinguishable from a successful run
whose endpoint returned the zero vector, so no degraded flag of any kind
is recorded, contrary to the claim. -/
theorem c2_counterexample :
    generate_embeddings_with_gpu true (fun _ => EmbResp.err 500)
        [{ id := 1, text := "chunk" }] =
      [{ chunk_id := 1, embedding := List.replicate 768 0,
         model_name := "embeddinggemma", model_version := "latest" }] ∧
    generate_embeddings_with_gpu true (fun _ => EmbResp.err 500)
        [{ id := 1, text := "chunk" }] =
      generate_embeddings_with_gpu true
        (fun _ => EmbResp.ok (List.replicate 768 0))
        [{ id := 1, text := "chunk" }] :=
  ⟨rfl, rfl⟩

/-- C2 amended: on permanent embedding failure the pipeline stores a
hard-coded 768-dimensional zero vector with **no** degraded flag (the
row has only chunk_id, embedding, model_name, model_version); the run
completes with one row stored per chunk, and — 768 being exactly the
configured model's advertised dimension, provided successful responses
honour that dimension — every stored vector has length 768. -/
theorem c2_amended_rows (transportOk : Bool) (resp : Nat → EmbResp)
    (chunks : List ChunkRec)
    (hdim : ∀ i v, resp i = EmbResp.ok v →
      v.length = production_embedding_dimension) :
    (generate_embeddings_with_gpu transportOk resp chunks).length =
      chunks.length ∧
    ∀ r ∈ generate_embeddings_with_gpu transportOk resp chunks,
      r.embedding.length = production_embedding_dimension ∧
      r.model_name = production_embedding_model_name := by
  constructor
  · rw [generate_embeddings_with_gpu]
    rw [List.length_map, List.length_zip, production_embeddings_length,
      List.length_map, Nat.min_self]
  · intro r hr
    rw [generate_embeddings_with_gpu] at hr
    obtain ⟨cv, hcv, hrec⟩ := List.mem_map.1 hr
    have hv2 := (List.of_mem_zip hcv).2
    subst hrec
    refine ⟨?_, rfl⟩
    rcases production_embeddings_mem _ _ _ _ hv2 with hzero | ⟨i, hok⟩
    · rw [hzero, List.length_replicate]
      rfl
    · exact hdim i cv.2 hok

/-- C2 witness at a concrete input: an endpoint answering the zero
vector honours the advertised dimension. -/
theorem c2_witness :
    (generate_embeddings_with_gpu true
        (fun _ => EmbResp.ok (List.replicate 768 0))
        [{ id := 3, text := "c" }]).length = 1 ∧
    ∀ r ∈ generate_embeddings_with_gpu true
        (fun _ => EmbResp.ok (List.replicate 768 0)) [{ id := 3, text := "c" }],
      r.embedding.length = production_embedding_dimension ∧
      r.model_name = production_embedding_model_name :=
  c2_amended_rows true (fun _ => EmbResp.ok (List.replicate 768 0))
    [{ id := 3, text := "c" }]
    (fun _ v h => by cases h; rw [List.length_replicate]; rfl)

/-- Helper: `_get_or_create_manufacturer` never touches the documents
table. -/
theorem get_or_create_manufacturer_documents (st : SupaState) (name : String) :
    (get_or_create_manufacturer st name).2.documents = st.documents := by
  unfold get_or_create_manufacturer
  cases alookup st.manufacturers name <;> rfl

/-- C4 counterexample: the store stage inserts the Document row with
`processing_status = "completed"` and `processing_progress = 100`
already — not `"processing"` — in both processors, before any chunking
or embedding has run. -/
theorem c4_counterexample :
    (supabase_document_data 1 "HP_E786_SM.pdf" "hash" "url" 10 5
        "service_manual" 0 "3, 5/2024").processing_status = "completed" ∧
    (supabase_document_data 1 "HP_E786_SM.pdf" "hash" "url" 10 5
        "service_manual" 0 "3, 5/2024").processing_status ≠ "processing" ∧
    (supabase_document_data 1 "HP_E786_SM.pdf" "hash" "url" 10 5
        "service_manual" 0 "3, 5/2024").processing_progress = 100 ∧
    (production_document_data 1 "HP_E786_SM.pdf" "service_manual" "hp" ""
        [] 5 "url" 10).processing_status = "completed" := by
  exact ⟨rfl, by decide, rfl, rfl⟩

/-- C4 amended: both store stages write the Document row with
`processing_status = "completed"` (the supabase variant also
`processing_progress = 100`) — there is no `"processing"` interim state
and no separate finalize stage; every row either survived from the prior
state or was inserted already `"completed"` before chunks and embeddings
were produced. -/
theorem c4_amended_store_writes_completed (g : SupaStages) (g2 : ProdStages)
    (st : SupaState) (st2 : ProdState) (fn : String) (B : List Nat) :
    (∀ d ∈ (supa_process_document g st fn B).2.documents,
      d ∈ st.documents ∨
        (d.processing_status = "completed" ∧ d.processing_progress = 100)) ∧
    (∀ d ∈ (prod_process_document g2 st2 fn B).2.documents,
      d ∈ st2.documents ∨ d.processing_status = "completed") := by
  constructor
  · intro d hd
    simp only [supa_process_document] at hd
    rcases hfind : st.documents.find?
        (fun r => r.file_hash == g.sha256 B) with _ | found
    · rw [hfind] at hd
      simp only [get_or_create_manufacturer_documents, List.mem_append,
        List.mem_singleton] at hd
      rcases hd with hmem | hnew
      · exact Or.inl hmem
      · subst hnew
        exact Or.inr ⟨rfl, rfl⟩
    · rw [hfind] at hd
      exact Or.inl hd
  · intro d hd
    simp only [prod_process_document] at hd
    simp only [List.mem_append, List.mem_singleton] at hd
    rcases hd with hmem | hnew
    · exact Or.inl hmem
    · subst hnew
      exact Or.inr rfl

/-- C4 witness: the Document row a concrete first run inserts is already
`"completed"` at progress `100`. -/
theorem c4_witness :
    supabase_document_data 1 "a.pdf" "h3x6"
        "http://supabase.local/storage/v1/object/krai-documents/h3x6.pdf"
        3 1 "service_manual" 0 "" ∈ emptySupaState.documents ∨
      ((supabase_document_data 1 "a.pdf" "h3x6"
          "http://supabase.local/storage/v1/object/krai-documents/h3x6.pdf"
          3 1 "service_manual" 0 "").processing_status = "completed" ∧
        (supabase_document_data 1 "a.pdf" "h3x6"
          "http://supabase.local/storage/v1/object/krai-documents/h3x6.pdf"
          3 1 "service_manual" 0 "").processing_progress = 100) :=
  (c4_amended_store_writes_completed testSupaStages testProdStages
      emptySupaState emptyProdState "a.pdf" [1, 2, 3]).1 _ (by decide)

/-- C9 counterexample: with a configuration carrying both a
document-type entry and a manufacturer entry (the latter with a
`default_strategy` key), the supabase selector returns the manufacturer
entry, not the document-type entry the claim promises. -/
theorem c9_counterexample :
    supabase_determine_chunking_strategy chunkSettingsBothOverrides
        "service_manual" "hp" =
      SupaChunkingChoice.manufacturerSettings
        { default_strategy := some "hp_tuned",
          preferred_strategy := some "hp_tuned",
          chunk_size_multiplier := some (6/5) } ∧
    supabase_determine_chunking_strategy chunkSettingsBothOverrides
        "service_manual" "hp" ≠
      SupaChunkingChoice.docTypeSettings
        { strategy := some "service_manual",
          preferred_strategy := some "service_manual",
          chunk_size := some 1200, chunk_overlap := some 200 } := by
  exact ⟨rfl, by decide⟩

/-- C9 amended: the classifier variant does apply the document-type
override first — whenever a document-type entry exists it is the one
returned, regardless of any manufacturer entry — while the supabase
variant consults the manufacturer entry first and returns it whole
whenever its `default_strategy` key is truthy. -/
theorem c9_amended_precedence (cfg : ChunkSettings) (dt m : String)
    (ds : DocTypeChunkSettings)
    (hdt : alookup cfg.document_type_specific dt = some ds) :
    (classifier_determine_chunking_strategy cfg dt m).settings =
      SettingsSource.docType ds ∧
    ∀ ms, alookup cfg.manufacturer_specific m = some ms →
      truthyOptStr ms.default_strategy = true →
      supabase_determine_chunking_strategy cfg dt m =
        SupaChunkingChoice.manufacturerSettings ms := by
  constructor
  · unfold classifier_determine_chunking_strategy
    rw [hdt]
  · intro ms hms htruthy
    unfold supabase_determine_chunking_strategy
    rw [hms]
    dsimp only
    rw [if_pos htruthy]

/-- C9 witness at the concrete two-override configuration. -/
theorem c9_witness :
    (classifier_determine_chunking_strategy chunkSettingsBothOverrides
        "service_manual" "hp").settings =
      SettingsSource.docType
        { strategy := some "service_manual",
          preferred_strategy := some "service_manual",
          chunk_size := some 1200, chunk_overlap := some 200 } :=
  (c9_amended_precedence chunkSettingsBothOverrides "service_manual" "hp"
      _ rfl).1

/-- C5 counterexample: the object key includes the original file
extension, so the same bytes uploaded under two logical paths with
different extensions get different keys — the second upload issues a
second PUT and returns a different `storage_url`, contrary to the claim
for arbitrary logical paths. -/
theorem c5_counterexample :
    (upload_file testSha256 "http://supabase.local" true
        (upload_file testSha256 "http://supabase.local" true emptyStorage
          "krai-images" "scan.jpg" [7, 7]).2
        "krai-images" "scan.png" [7, 7]).1 ≠
      (upload_file testSha256 "http://supabase.local" true emptyStorage
        "krai-images" "scan.jpg" [7, 7]).1 ∧
    ((upload_file testSha256 "http://supabase.local" true
        (upload_file testSha256 "http://supabase.local" true emptyStorage
          "krai-images" "scan.jpg" [7, 7]).2
        "krai-images" "scan.png" [7, 7]).2).putLog.length = 2 := by
  exact ⟨by decide, rfl⟩

/-- C5 amended: uploads are content-addressed by
`SHA256(bytes) + extension` with a HEAD probe before the write, so
re-uploading the same bytes under any logical path **with the same
extension** returns the same `storage_url` and issues no second PUT
(the state, and with it the PUT log, is unchanged). -/
theorem c5_amended_same_suffix_idempotent (sha256 : List Nat → String)
    (supabase_url : String) (w1 w2 : Bool) (st : StorageState)
    (bucket p1 p2 : String) (B : List Nat) (u : String) (st' : StorageState)
    (hsuffix : pathSuffix p1 = pathSuffix p2)
    (h : upload_file sha256 supabase_url w1 st bucket p1 B = (some u, st')) :
    upload_file sha256 supabase_url w2 st' bucket p2 B = (some u, st') := by
  simp only [upload_file] at h ⊢
  rw [← hsuffix]
  rcases hc : st.objects.contains (bucket ++ "/" ++ (sha256 B ++ pathSuffix p1))
    with _ | _
  · have hcm : (bucket ++ "/" ++ (sha256 B ++ pathSuffix p1)) ∉ st.objects := by
      intro hm
      rw [contains_iff_mem_str.2 hm] at hc
      simp at hc
    rw [if_neg (by simp [hcm])] at h
    cases w1 with
    | false =>
      rw [if_neg (by simp)] at h
      exact absurd (congrArg Prod.fst h) (by simp)
    | true =>
      rw [if_pos rfl] at h
      injection h with hu hst
      injection hu with hu
      subst hu
      subst hst
      rw [if_pos (by simp)]
  · have hcm : (bucket ++ "/" ++ (sha256 B ++ pathSuffix p1)) ∈ st.objects :=
      contains_iff_mem_str.1 hc
    rw [if_pos (by simp [hcm])] at h
    injection h with hu hst
    injection hu with hu
    subst hu
    subst hst
    rw [if_pos (by simp [hcm])]

/-- C5 witness: same bytes, same extension — same URL, no second PUT. -/
theorem c5_witness :
    upload_file testSha256 "http://supabase.local" true
        (upload_file testSha256 "http://supabase.local" true emptyStorage
          "krai-images" "a.jpg" [7]).2 "krai-images" "b.jpg" [7] =
      (some "http://supabase.local/storage/v1/object/krai-images/h1x7.jpg",
        (upload_file testSha256 "http://supabase.local" true emptyStorage
          "krai-images" "a.jpg" [7]).2) :=
  c5_amended_same_suffix_idempotent testSha256 "http://supabase.local" true true
    emptyStorage "krai-images" "a.jpg" "b.jpg" [7]
    "http://supabase.local/storage/v1/object/krai-images/h1x7.jpg"
    (upload_file testSha256 "http://supabase.local" true emptyStorage
      "krai-images" "a.jpg" [7]).2 rfl rfl

/-- C7: every error code the extractor outputs passed
`re.match(validation_regex, ·)` — for any loaded pattern table, any
content and any manufacturer; and on the Lexmark scenario text the
accepted codes are exactly `121.54, 200.03, 84.00, 88.00`, while
`121.0X` is rejected. -/
theorem c7_error_codes_validated :
    (∀ (eps : List (String × ManuErrorConfig)) (content manufacturer : String)
        (cfg : ManuErrorConfig) (h : ErrorCodeHit),
        alookup eps (pyLower manufacturer) = some cfg →
        h ∈ extract_error_codes_json eps content manufacturer →
        reMatchPy cfg.validation_regex h.code = true) ∧
    (extract_error_codes_json spec_error_patterns lexmarkScenarioText
        "lexmark").map (fun h => h.code) =
      ["121.54", "200.03", "84.00", "88.00"] ∧
    "121.0X" ∉ (extract_error_codes_json spec_error_patterns
        lexmarkScenarioText "lexmark").map (fun h => h.code) := by
  refine ⟨?_, by decide, by decide⟩
  intro eps content manufacturer cfg h hcfg hmem
  unfold extract_error_codes_json at hmem
  rw [hcfg] at hmem
  simp only [List.mem_flatMap, List.mem_filterMap] at hmem
  obtain ⟨p, _, m, _, hif⟩ := hmem
  by_cases hv : reMatchPy cfg.validation_regex m = true
  · rw [if_pos hv] at hif
    injection hif with hif
    rw [← hif]
    exact hv
  · rw [if_neg hv] at hif
    cases hif

/-- C7 witness: a concrete accepted code satisfies the Lexmark
validation regex. -/
theorem c7_witness :
    reMatchPy lexmarkErrorConfig.validation_regex "121.54" = true :=
  c7_error_codes_validated.1 spec_error_patterns lexmarkScenarioText "lexmark"
    lexmarkErrorConfig
    { code := "121.54", description := "Fuser error", category := "fuser",
      manufacturer := "lexmark" }
    rfl (by decide)

/-- C8: the hybrid merge prefers the filename result at confidence
≥ 0.8, then the content result at positive confidence, then the filename
result — for manufacturer and document type alike; the merged models are
the union of both sides; the version prefers a non-empty content
version, else the filename version. -/
theorem c8_hybrid_merge (fr : PassResult) (cr : Option PassResult) :
    (fr.manufacturer_confidence ≥ 8/10 →
      (hybrid_classification fr cr).manufacturer = fr.manufacturer ∧
      (hybrid_classification fr cr).manufacturer_confidence =
        fr.manufacturer_confidence) ∧
    (¬ fr.manufacturer_confidence ≥ 8/10 →
      ∀ c, cr = some c → 0 < c.manufacturer_confidence →
        (hybrid_classification fr cr).manufacturer = c.manufacturer ∧
        (hybrid_classification fr cr).manufacturer_confidence =
          c.manufacturer_confidence) ∧
    (¬ fr.manufacturer_confidence ≥ 8/10 →
      (∀ c, cr = some c → ¬ 0 < c.manufacturer_confidence) →
      (hybrid_classification fr cr).manufacturer = fr.manufacturer ∧
      (hybrid_classification fr cr).manufacturer_confidence =
        fr.manufacturer_confidence) ∧
    (fr.document_type_confidence ≥ 8/10 →
      (hybrid_classification fr cr).document_type = fr.document_type ∧
      (hybrid_classification fr cr).document_type_confidence =
        fr.document_type_confidence) ∧
    (¬ fr.document_type_confidence ≥ 8/10 →
      ∀ c, cr = some c → 0 < c.document_type_confidence →
        (hybrid_classification fr cr).document_type = c.document_type ∧
        (hybrid_classification fr cr).document_type_confidence =
          c.document_type_confidence) ∧
    (¬ fr.document_type_confidence ≥ 8/10 →
      (∀ c, cr = some c → ¬ 0 < c.document_type_confidence) →
      (hybrid_classification fr cr).document_type = fr.document_type ∧
      (hybrid_classification fr cr).document_type_confidence =
        fr.document_type_confidence) ∧
    (∀ mo, mo ∈ (hybrid_classification fr cr).models ↔
      mo ∈ fr.models ∨ ∃ c, cr = some c ∧ mo ∈ c.models) ∧
    (∀ c, cr = some c → c.version ≠ "" →
      (hybrid_classification fr cr).version = c.version) ∧
    (∀ c, cr = some c → c.version = "" →
      (hybrid_classification fr cr).version = fr.version) ∧
    (cr = none → (hybrid_classification fr cr).version = fr.version) := by
  unfold hybrid_classification
  refine ⟨?_, ?_, ?_, ?_, ?_, ?_, ?_, ?_, ?_, ?_⟩
  · intro hge
    rw [if_pos hge]
    exact ⟨rfl, rfl⟩
  · intro hlt c hc hpos
    subst hc
    rw [if_neg hlt]
    dsimp only
    rw [if_pos hpos]
    exact ⟨rfl, rfl⟩
  · intro hlt hnone
    rw [if_neg hlt]
    cases cr with
    | none => exact ⟨rfl, rfl⟩
    | some c =>
      dsimp only
      rw [if_neg (hnone c rfl)]
      exact ⟨rfl, rfl⟩
  · intro hge
    rw [if_pos hge]
    exact ⟨rfl, rfl⟩
  · intro hlt c hc hpos
    subst hc
    rw [if_neg hlt]
    dsimp only
    rw [if_pos hpos]
    exact ⟨rfl, rfl⟩
  · intro hlt hnone
    rw [if_neg hlt]
    cases cr with
    | none => exact ⟨rfl, rfl⟩
    | some c =>
      dsimp only
      rw [if_neg (hnone c rfl)]
      exact ⟨rfl, rfl⟩
  · intro mo
    cases cr with
    | none => simp
    | some c => simp
  · intro c hc hne
    subst hc
    dsimp only
    rw [if_pos hne]
  · intro c hc he
    subst hc
    dsimp only
    rw [if_neg (by simp [he])]
    by_cases hf : fr.version ≠ ""
    · rw [if_pos hf]
    · rw [if_neg hf]
      dsimp only
      exact (not_not.1 hf).symm
  · intro hc
    subst hc
    dsimp only
    by_cases hf : fr.version ≠ ""
    · rw [if_pos hf]
    · rw [if_neg hf]
      dsimp only
      exact (not_not.1 hf).symm

/-- C8 witness at a concrete pair of pass results. -/
theorem c8_witness :
    (hybrid_classification
        { manufacturer := "hp", manufacturer_confidence := 9/10,
            document_type := "service_manual",
            document_type_confidence := 8/10,
            models := ["E786"], version := "", confidence := 85/100 }
        (some { manufacturer := "lexmark", manufacturer_confidence := 3/10,
                document_type := "parts_catalog",
                document_type_confidence := 2/10,
                models := ["CS725"], version := "2.1",
                confidence := 25/100 })).manufacturer = "hp" ∧
    (hybrid_classification
        { manufacturer := "hp", manufacturer_confidence := 9/10,
            document_type := "service_manual",
            document_type_confidence := 8/10,
            models := ["E786"], version := "", confidence := 85/100 }
        (some { manufacturer := "lexmark", manufacturer_confidence := 3/10,
                document_type := "parts_catalog",
                document_type_confidence := 2/10,
                models := ["CS725"], version := "2.1",
                confidence := 25/100 })).manufacturer_confidence = 9/10 :=
  (c8_hybrid_merge
      { manufacturer := "hp", manufacturer_confidence := 9/10,
          document_type := "service_manual",
          document_type_confidence := 8/10,
          models := ["E786"], version := "", confidence := 85/100 }
      (some { manufacturer := "lexmark", manufacturer_confidence := 3/10,
              document_type := "parts_catalog",
              document_type_confidence := 2/10,
              models := ["CS725"], version := "2.1",
              confidence := 25/100 })).1
    (by norm_num)

/-- C6 (configuration modelled from the spec): every model emitted by
placeholder expansion for a detected placeholder is in the known-models
table for that placeholder's manufacturer and fully matches the
placeholder's regex pattern — under the spec's configuration both
placeholders carry actual-models lists, and those are emitted as is. -/
theorem c6_placeholder_expansion_sound (text : String)
    (manufacturer : Option String) (P : DetectedPlaceholder) (m : String)
    (hP : P ∈ extract_placeholders spec_placeholder_types text)
    (hm : m ∈ expand_placeholders [P] manufacturer) :
    m ∈ known_models_for P.manufacturer ∧
    matchesPlaceholderPattern P.pattern m = true := by
  have hPor : P = detectedCxx0i ∨ P = detectedCxx1i := by
    by_cases h1 : strContainsCI text "Cxx0i" <;>
      by_cases h2 : strContainsCI text "Cxx1i" <;>
        simp [extract_placeholders, spec_placeholder_types, h1, h2,
          detectedCxx0i, detectedCxx1i] at hP ⊢ <;>
          tauto
  rcases hPor with hP0 | hP1
  · subst hP0
    simp only [expand_placeholders, detectedCxx0i, List.flatMap_cons,
      List.flatMap_nil, List.append_nil] at hm
    simp only [List.isEmpty_cons, Bool.false_eq_true, if_false,
      List.mem_cons, List.not_mem_nil, or_false] at hm
    rcases hm with h | h | h | h <;> subst h <;> exact ⟨by decide, by decide⟩
  · subst hP1
    simp only [expand_placeholders, detectedCxx1i, List.flatMap_cons,
      List.flatMap_nil, List.append_nil] at hm
    simp only [List.isEmpty_cons, Bool.false_eq_true, if_false,
      List.mem_cons, List.not_mem_nil, or_false] at hm
    rcases hm with h | h | h | h <;> subst h <;> exact ⟨by decide, by decide⟩

/-- C6 witness: the bulletin text detects `Cxx0i`, and the expanded
model `C450i` is a known konica-minolta model matching the pattern. -/
theorem c6_witness :
    "C450i" ∈ known_models_for detectedCxx0i.manufacturer ∧
    matchesPlaceholderPattern detectedCxx0i.pattern "C450i" = true :=
  c6_placeholder_expansion_sound "i-series (bizhub Cxx0i/Cxx1i)"
    (some "konica_minolta") detectedCxx0i "C450i" (by decide) (by decide)

/-- C1 counterexample: `ProductionDocumentProcessor.process_document`
performs no duplicate check — submitting the same bytes twice returns
`success` (not `duplicate`) with a **new** document id, and two Document
rows exist afterwards. -/
theorem c1_counterexample :
    (prod_process_document testProdStages emptyProdState "HP_E786_SM.pdf"
        [1, 2, 3]).1 = ProdResult.success 0 ∧
    (prod_process_document testProdStages
        (prod_process_document testProdStages emptyProdState "HP_E786_SM.pdf"
          [1, 2, 3]).2
        "HP_E786_SM_copy.pdf" [1, 2, 3]).1 = ProdResult.success 1 ∧
    ((prod_process_document testProdStages
        (prod_process_document testProdStages emptyProdState "HP_E786_SM.pdf"
          [1, 2, 3]).2
        "HP_E786_SM_copy.pdf" [1, 2, 3]).2).documents.length = 2 :=
  ⟨rfl, rfl, rfl⟩

/-- C1 amended: the supabase variant does deduplicate — once a run has
stored the Document row for bytes `B`, any later call on the same bytes
hashes them, finds that row by `file_hash` before uploading anything,
returns `duplicate` with that row's id (the id the first call reported
inside its store-result dict), and leaves every table and the object
store untouched. -/
theorem c1_amended_supabase_dedup (g : SupaStages) (st : SupaState)
    (f1 f2 : String) (B : List Nat) (r : StoreDocResult) (u : String)
    (st' : SupaState)
    (h : supa_process_document g st f1 B = (SupaResult.success r u, st')) :
    supa_process_document g st' f2 B =
      (SupaResult.duplicate r.document_id, st') := by
  simp only [supa_process_document] at h ⊢
  rcases hfind : st.documents.find? (fun d => d.file_hash == g.sha256 B)
    with _ | found
  · rw [hfind] at h
    injection h with hres hst
    injection hres with hsr hsu
    subst hsr
    subst hsu
    subst hst
    rw [get_or_create_manufacturer_documents]
    rw [find?_append_singleton _ _ _ hfind (by simp [supabase_document_data])]
    rfl
  · rw [hfind] at h
    exact absurd (congrArg Prod.fst h) (by simp)

/-- C1 witness: a concrete first run stores the row; the second call on
the same bytes returns `duplicate` with that row's id, state unchanged. -/
theorem c1_witness :
    supa_process_document testSupaStages
        (supa_process_document testSupaStages emptySupaState "a.pdf"
          [1, 2, 3]).2 "b.pdf" [1, 2, 3] =
      (SupaResult.duplicate 1,
        (supa_process_document testSupaStages emptySupaState "a.pdf"
          [1, 2, 3]).2) :=
  c1_amended_supabase_dedup testSupaStages emptySupaState "a.pdf" "b.pdf"
    [1, 2, 3] { document_id := 1, status := "success" }
    "http://supabase.local/storage/v1/object/krai-documents/h3x6.pdf"
    (supa_process_document testSupaStages emptySupaState "a.pdf" [1, 2, 3]).2
    rfl
